import Mathlib

set_option maxHeartbeats 1000000

/-!
Shallow embedding of the provisioning scripts of this repository
(part1/part1.py, part2/part2.py, part3/vm1-launch-vm2.py).

The provider's HTTP API returns decoded JSON dictionaries; Python-side
values are modelled by the `Json` inductive below.  Python exceptions are
modelled by `PyErr`; fallible code returns `Except PyErr _` or
`Except HttpError _` (the repository re-raises `HttpError` unchanged in
its guarded lookups, so those keep the narrower error type).

Remote interaction is modelled two ways, as the claims require:
* an *outcome model*, where a lookup/poll is a function of the observed
  provider responses (used for the error-routing and polling claims), and
* a *state model* (`CloudState`), where the provider inventory is explicit
  and every issued API call is recorded in a trace (used for the
  idempotence, ordering and fleet-cloning claims).  In the state model the
  provider is well behaved: a point lookup answers 404 exactly when the
  name is absent from the inventory, and every operation reaches DONE
  without error.
-/

/-- Decoded JSON value, as produced by the googleapiclient transport. -/
inductive Json where
  | null
  | bool (b : Bool)
  | num (n : Int)
  | str (s : String)
  | arr (xs : List Json)
  | obj (kvs : List (String × Json))

/-- Python truthiness of a JSON-decoded value (`if x:`). -/
def Json.truthy : Json → Bool
  | .null => false
  | .bool b => b
  | .num n => n != 0
  | .str s => s != ("")
  | .arr xs => !xs.isEmpty
  | .obj kvs => !kvs.isEmpty

/-- `d.get(k)` on a JSON object: `some v` when the key is present, else `none`.
Only meaningful on `.obj`; callers that may receive another shape model the
`AttributeError` separately. -/
def Json.objGet? : Json → String → Option Json
  | .obj kvs, k => (kvs.find? (fun kv => kv.1 == k)).map (·.2)
  | _, _ => none

/-- Does a JSON object carry the given key? -/
def Json.hasKey (j : Json) (k : String) : Bool :=
  match j with
  | .obj kvs => kvs.any (fun kv => kv.1 == k)
  | _ => false

/-- An HTTP error raised by the googleapiclient transport (`HttpError`);
only the status code is inspected by this repository. -/
structure HttpError where
  status : Nat
deriving DecidableEq, Repr

/-- Python exception values thrown by the embedded code paths. -/
inductive PyErr where
  | http (e : HttpError)
  | runtime (payload : Json)
  | keyError (k : String)
  | indexError
  | typeError

/-- Turn a present value into success and an absent one into the given
exception. -/
def optToExcept (e : PyErr) : Option Json → Except PyErr Json
  | some v => .ok v
  | none => .error e

/-- Python `x[k]` subscription: `KeyError` on a missing key, `TypeError`
when the subscripted value is not a dict. -/
def pyGetItem : Json → String → Except PyErr Json
  | .obj kvs, k => optToExcept (.keyError k) ((kvs.find? (fun kv => kv.1 == k)).map (·.2))
  | _, _ => .error .typeError

/-- Python `x[i]` indexing: `IndexError` past the end, `TypeError` when the
indexed value is not a list. -/
def pyGetIndex : Json → Nat → Except PyErr Json
  | .arr xs, i => optToExcept .indexError (xs.get? i)
  | _, _ => .error .typeError

/-- Python `str(...)` rendering of a JSON-decoded value, as used by
`RuntimeError(str(result["error"]))` in the part3 scripts. -/
def pyRepr : Json → String
  | .null => "None"
  | .bool b => if b then "True" else "False"
  | .num n => toString n
  | .str s => "\x27" ++ s ++ "\x27"
  | .arr xs => "[" ++ pyReprItems xs ++ "]"
  | .obj kvs => "\x7b" ++ pyReprPairs kvs ++ "\x7d"
where
  /-- Comma-joined renderings of list items. -/
  pyReprItems : List Json → String
    | [] => ""
    | [x] => pyRepr x
    | x :: y :: xs => pyRepr x ++ ", " ++ pyReprItems (y :: xs)
  /-- Comma-joined renderings of dict entries. -/
  pyReprPairs : List (String × Json) → String
    | [] => ""
    | [(k, v)] => "\x27" ++ k ++ "\x27: " ++ pyRepr v
    | (k, v) :: kv :: kvs => "\x27" ++ k ++ "\x27: " ++ pyRepr v ++ ", " ++ pyReprPairs (kv :: kvs)

/-- One provider answer to an operation-status poll: the decoded fields the
scripts inspect (`op.get("status")`, `"error" in op` / `op["error"]`). -/
structure Operation where
  status : String
  error : Option Json

/-- Result of driving the `while True` polling loop against a finite list of
observed statuses: the number of fetches issued and, on a DONE answer,
the attached error payload if any. -/
inductive PollOutcome where
  | success (polls : Nat)
  | failed (payload : Json) (polls : Nat)

/-- The shared `while True: fetch; if DONE: ...` loop body of every
`wait_for_zone_op` / `wait_for_global_op` in the repository, evaluated
against the finite list of provider answers observed at successive polls.
`none` means the observations ran out before a DONE answer (the Python
loop would still be sleeping and polling). -/
def pollUntilDone : List Operation → Option PollOutcome
  | [] => none
  | op :: rest =>
      if op.status = ("DONE") then
        match op.error with
        | some e => some (.failed e 1)
        | none => some (.success 1)
      else
        match pollUntilDone rest with
        | some (.success k) => some (.success (k + 1))
        | some (.failed e k) => some (.failed e (k + 1))
        | none => none

namespace Part1

/-- part1.py `firewall_exists`: a guarded point lookup; 404 means absent,
any other `HttpError` is re-raised unchanged.  The argument is the outcome
of `compute.firewalls().get(...).execute()`. -/
def firewall_exists (r : Except HttpError Json) : Except HttpError Bool :=
  match r with
  | .ok _ => .ok true
  | .error e => if e.status = 404 then .ok false else .error e

/-- part1.py `instance_get`: a guarded point lookup; 404 becomes `None`,
any other `HttpError` is re-raised unchanged. -/
def instance_get (r : Except HttpError Json) : Except HttpError (Option Json) :=
  match r with
  | .ok j => .ok (some j)
  | .error e => if e.status = 404 then .ok none else .error e

/-- part1.py `wait_for_zone_op`: poll until DONE; on a DONE answer with an
`error` field, `raise RuntimeError(op["error"])` — the exact payload.
The `Nat` counts status fetches issued. -/
def wait_for_zone_op (obs : List Operation) : Option (Except PyErr Nat) :=
  (pollUntilDone obs).map fun
    | .success k => .ok k
    | .failed e _ => .error (.runtime e)

/-- part1.py `wait_for_global_op`: identical polling and error behavior to
`wait_for_zone_op`, against the global-operations endpoint. -/
def wait_for_global_op (obs : List Operation) : Option (Except PyErr Nat) :=
  (pollUntilDone obs).map fun
    | .success k => .ok k
    | .failed e _ => .error (.runtime e)

/-- part1.py `get_external_ip` body before the `try/except`:
`inst["networkInterfaces"][0]["accessConfigs"][0]["natIP"]`. -/
def get_external_ip_body (inst : Json) : Except PyErr Json :=
  pyGetItem inst ("networkInterfaces") >>= fun a =>
  pyGetIndex a 0 >>= fun b =>
  pyGetItem b ("accessConfigs") >>= fun c =>
  pyGetIndex c 0 >>= fun d =>
  pyGetItem d ("natIP")

/-- part1.py `get_external_ip`: the nested subscription chain wrapped in
`try: ... except Exception: return None`. -/
def get_external_ip (inst : Json) : Option Json :=
  match get_external_ip_body inst with
  | .ok v => some v
  | .error _ => none

end Part1

/-- The first network interface's first access-config NAT address, written
as the spec describes it: each step returns the field when present and
`none` otherwise, with no exception anywhere. -/
def natIPOfSpec (inst : Json) : Option Json :=
  (inst.objGet? ("networkInterfaces")).bind fun a =>
  (match a with | .arr xs => xs.get? 0 | _ => none).bind fun b =>
  (b.objGet? ("accessConfigs")).bind fun c =>
  (match c with | .arr xs => xs.get? 0 | _ => none).bind fun d =>
  d.objGet? ("natIP")

/-- A remote API call issued by the state-model embedding; mutating calls
and completed operation waits are recorded so ordering and counting claims
can be read off the trace. -/
inductive ApiCall where
  | firewallGet (name : String)
  | firewallInsert (name : String)
  | instanceGet (name : String)
  | instanceInsert (name : String)
  | snapshotGet (name : String)
  | snapshotCreate (diskName : String) (snapName : String)
  | awaitZoneOp (waitedFor : String)
  | awaitGlobalOp (waitedFor : String)
deriving DecidableEq, Repr

/-- The provider inventory plus the run's observable behavior: the trace of
issued calls and a virtual clock (one tick per completed operation wait),
standing in for `time.perf_counter()`. -/
structure CloudState where
  firewalls : List String
  instances : List (String × Json)
  snapshots : List String
  trace : List ApiCall
  time : Nat

/-- Await a zone operation to DONE (well-behaved provider): records the
wait and advances the clock. -/
def awaitZoneOpS (s : CloudState) (waitedFor : String) : CloudState :=
  { s with time := s.time + 1, trace := s.trace ++ [.awaitZoneOp waitedFor] }

/-- Await a global operation to DONE (well-behaved provider): records the
wait and advances the clock. -/
def awaitGlobalOpS (s : CloudState) (waitedFor : String) : CloudState :=
  { s with time := s.time + 1, trace := s.trace ++ [.awaitGlobalOp waitedFor] }

/-- The instance description stored under a name, if any. -/
def lookupInstance (s : CloudState) (name : String) : Option Json :=
  (s.instances.find? (fun kv => kv.1 == name)).map (·.2)

/-- Outcome of a reconcile-or-create step. -/
inductive EnsureResult where
  | existing
  | created
deriving DecidableEq, Repr

namespace Part1

/-- part1.py `firewall_exists` against the state model: the provider
answers the point lookup with 404 exactly when the name is absent. -/
def firewall_existsS (s : CloudState) (name : String) : CloudState × Bool :=
  ({ s with trace := s.trace ++ [.firewallGet name] }, s.firewalls.contains name)

/-- part1.py `ensure_firewall_allow_5000` against the state model: lookup;
if present, return at once; otherwise insert the firewall and await the
returned global operation. -/
def ensure_firewall_allow_5000 (s : CloudState) (name : String) : CloudState × EnsureResult :=
  let p := firewall_existsS s name
  if p.2 then
    (p.1, .existing)
  else
    let s2 := { p.1 with firewalls := name :: p.1.firewalls,
                         trace := p.1.trace ++ [.firewallInsert name] }
    (awaitGlobalOpS s2 name, .created)

/-- The fixed message of part1.py main's
`raise RuntimeError("Timed out waiting for external IP")`. -/
def timeoutErr : PyErr := .runtime (.str ("Timed out waiting for external IP"))

/-- One iteration's address check in part1.py main's readiness loop:
`ip = get_external_ip(inst) if inst else None` followed by `if ip:` —
the lookup answer (`none` when `instance_get` returned `None`), the
truthiness guard on the description, the extraction, and the truthiness
guard on the extracted value. -/
def attemptIp (inst : Option Json) : Option Json :=
  match inst with
  | some j =>
      if j.truthy then
        match get_external_ip j with
        | some v => if v.truthy then some v else none
        | none => none
      else none
  | none => none

/-- part1.py main's readiness loop, generalized over the attempt budget
(`range(80)` in the source): `lookups i` is the instance description the
i-th `instance_get` observed.  Returns the outcome together with the
number of lookups performed. -/
def wait_external_ip (lookups : Nat → Option Json) : Nat → Nat → Except PyErr Json × Nat
  | 0, _ => (.error timeoutErr, 0)
  | n + 1, i =>
      match attemptIp (lookups i) with
      | some v => (.ok v, 1)
      | none =>
          let r := wait_external_ip lookups n (i + 1)
          (r.1, r.2 + 1)

/-- part1.py `startup_script` (verbatim payload; opaque to all logic). -/
def startup_script : String :=
  "#!/bin/bash\nset -euxo pipefail\n\nLOG=/var/log/startup-script.log\nexec > >(tee -a $\x7bLOG\x7d | logger -t startup-script) 2>&1\n\napt-get update\napt-get install -y python3 python3-pip git\n\nWORKDIR=/opt/flask-tutorial\nmkdir -p $\x7bWORKDIR\x7d\ncd $\x7bWORKDIR\x7d\n\nif [ ! -d flask-tutorial ]; then\n  git clone https://github.com/cu-csci-4253-datacenter/flask-tutorial\nfi\n\ncd flask-tutorial\n\npython3 setup.py install\npip3 install -e .\n\nexport FLASK_APP=flaskr\nflask init-db\n\nnohup flask run -h 0.0.0.0 -p 5000 &\n"

/-- part1.py `create_instance`'s `config` dict: boots from the Ubuntu
image family — the only boot source it carries. -/
def instance_config (project zone name machine_type tag : String) : Json :=
  .obj [
    (("name"), .str name),
    (("machineType"), .str (("zones/") ++ zone ++ ("/machineTypes/") ++ machine_type)),
    (("tags"), .obj [(("items"), .arr [.str tag])]),
    (("disks"), .arr [
      .obj [
        (("boot"), .bool true),
        (("autoDelete"), .bool true),
        (("initializeParams"), .obj [
          (("sourceImage"), .str ("projects/ubuntu-os-cloud/global/images/family/ubuntu-2204-lts"))])]]),
    (("networkInterfaces"), .arr [
      .obj [
        (("network"), .str (("projects/") ++ project ++ ("/global/networks/default"))),
        (("accessConfigs"), .arr [
          .obj [(("name"), .str ("External NAT")), (("type"), .str ("ONE_TO_ONE_NAT"))]])]]),
    (("metadata"), .obj [
      (("items"), .arr [
        .obj [(("key"), .str ("startup-script")), (("value"), .str startup_script)]])])]

end Part1

namespace Part2

/-- part2.py `instance_get`: an unguarded point lookup — every failure,
404 included, propagates unchanged to the caller. -/
def instance_get (r : Except HttpError Json) : Except HttpError Json := r

/-- part2.py `snapshot_get`: a guarded point lookup; 404 becomes `None`,
any other `HttpError` is re-raised unchanged. -/
def snapshot_get (r : Except HttpError Json) : Except HttpError (Option Json) :=
  match r with
  | .ok j => .ok (some j)
  | .error e => if e.status = 404 then .ok none else .error e

/-- part2.py `instance_exists`: a guarded point lookup; 404 means absent,
any other `HttpError` is re-raised unchanged. -/
def instance_exists (r : Except HttpError Json) : Except HttpError Bool :=
  match r with
  | .ok _ => .ok true
  | .error e => if e.status = 404 then .ok false else .error e

/-- part2.py `wait_for_zone_op`: same loop and error behavior as part1's
(`raise RuntimeError(op["error"])` — the exact payload). -/
def wait_for_zone_op (obs : List Operation) : Option (Except PyErr Nat) :=
  (pollUntilDone obs).map fun
    | .success k => .ok k
    | .failed e _ => .error (.runtime e)

/-- part2.py `wait_for_global_op`: same loop and error behavior against
the global-operations endpoint. -/
def wait_for_global_op (obs : List Operation) : Option (Except PyErr Nat) :=
  (pollUntilDone obs).map fun
    | .success k => .ok k
    | .failed e _ => .error (.runtime e)

/-- `d.get("boot")` truthiness for one disk entry of the boot-disk scan;
a non-dict entry raises (`AttributeError`, modelled as `typeError`). -/
def bootFlagE (d : Json) : Except PyErr Bool :=
  match d with
  | .obj kvs =>
      .ok (match (kvs.find? (fun kv => kv.1 == ("boot"))).map (·.2) with
           | some v => v.truthy
           | none => false)
  | _ => .error .typeError

/-- The `for d in inst.get("disks", []): if d.get("boot"): ... break` scan:
first disk whose `boot` field is truthy, `none` when the loop finishes
without a hit. -/
def findBootDisk : List Json → Except PyErr (Option Json)
  | [] => .ok none
  | d :: ds =>
      match bootFlagE d with
      | .error e => .error e
      | .ok true => .ok (some d)
      | .ok false => findBootDisk ds

/-- `inst.get("disks", [])` followed by iteration: the disk list of an
instance description; a non-dict description or a non-list `disks` value
raises. -/
def disksListE (inst : Json) : Except PyErr (List Json) :=
  match inst with
  | .obj kvs =>
      match (kvs.find? (fun kv => kv.1 == ("disks"))).map (·.2) with
      | some (Json.arr ds) => .ok ds
      | some _ => .error .typeError
      | none => .ok []
  | _ => .error .typeError

/-- `boot_disk["source"].split("/")[-1]` once the source URL is in hand. -/
def diskNameOf (src : String) : String :=
  (src.splitOn ("/")).getLastD ("")

/-- part2.py `create_snapshot_from_instance_boot_disk` against the state
model.  The base-instance lookup is part2's unguarded `instance_get`, so a
missing base instance surfaces as the provider's 404 `HttpError`; a
present base instance without a boot disk raises before the snapshot
lookup; otherwise the snapshot is reconciled: found means return at once,
absent means `disks().createSnapshot` and await the zone operation. -/
def create_snapshot_from_instance_boot_disk (s : CloudState) (base_instance : String) :
    CloudState × Except PyErr String :=
  let s0 := { s with trace := s.trace ++ [.instanceGet base_instance] }
  match lookupInstance s base_instance with
  | none => (s0, .error (.http ⟨404⟩))
  | some inst =>
      match disksListE inst with
      | .error e => (s0, .error e)
      | .ok ds =>
          match findBootDisk ds with
          | .error e => (s0, .error e)
          | .ok none => (s0, .error (.runtime (.str ("Could not find boot disk on instance"))))
          | .ok (some boot_disk) =>
              match pyGetItem boot_disk ("source") with
              | .error e => (s0, .error e)
              | .ok (.str disk_source) =>
                  let disk_name := diskNameOf disk_source
                  let snapshot_name := ("base-snapshot-") ++ base_instance
                  let s1 := { s0 with trace := s0.trace ++ [.snapshotGet snapshot_name] }
                  if s.snapshots.contains snapshot_name then
                    (s1, .ok snapshot_name)
                  else
                    let s2 := { s1 with snapshots := snapshot_name :: s1.snapshots,
                                        trace := s1.trace ++ [.snapshotCreate disk_name snapshot_name] }
                    (awaitZoneOpS s2 snapshot_name, .ok snapshot_name)
              | .ok _ => (s0, .error .typeError)

/-- part2.py `instance_exists` against the state model: the provider
answers the point lookup with 404 exactly when the name is absent. -/
def instance_existsS (s : CloudState) (name : String) : CloudState × Bool :=
  ({ s with trace := s.trace ++ [.instanceGet name] },
   s.instances.any (fun kv => kv.1 == name))

/-- part2.py `create_instance_from_snapshot`'s `cfg` dict: boots from the
named snapshot — the only boot source it carries. -/
def clone_config (project zone name snapshot_name machine_type : String) : Json :=
  .obj [
    (("name"), .str name),
    (("machineType"), .str (("zones/") ++ zone ++ ("/machineTypes/") ++ machine_type)),
    (("tags"), .obj [(("items"), .arr [.str ("allow-5000")])]),
    (("disks"), .arr [
      .obj [
        (("boot"), .bool true),
        (("autoDelete"), .bool true),
        (("initializeParams"), .obj [
          (("sourceSnapshot"),
           .str (("projects/") ++ project ++ ("/global/snapshots/") ++ snapshot_name))])]]),
    (("networkInterfaces"), .arr [
      .obj [
        (("network"), .str (("projects/") ++ project ++ ("/global/networks/default"))),
        (("accessConfigs"), .arr [
          .obj [(("name"), .str ("External NAT")), (("type"), .str ("ONE_TO_ONE_NAT"))]])]])]

/-- part2.py `create_instance_from_snapshot` against the state model:
skip with elapsed 0 when the instance already exists, otherwise insert
and await the zone operation, returning the measured elapsed time (the
virtual clock advances one tick per awaited operation). -/
def create_instance_from_snapshot (s : CloudState) (project zone name snapshot_name machine_type : String) :
    CloudState × Nat :=
  let p := instance_existsS s name
  if p.2 then
    (p.1, 0)
  else
    let t0 := p.1.time
    let s2 := { p.1 with instances := (name, clone_config project zone name snapshot_name machine_type) :: p.1.instances,
                         trace := p.1.trace ++ [.instanceInsert name] }
    let s3 := awaitZoneOpS s2 name
    (s3, s3.time - t0)

/-- part2.py main's clone loop (`for i in range(1, count + 1)`): derive
`<base>-clone-<i>`, call `create_instance_from_snapshot`, and append one
`(name, seconds)` timing record per call. -/
def cloneFleet (project zone base snapshot_name machine_type : String) :
    CloudState → Nat → Nat → CloudState × List (String × Nat)
  | s, 0, _ => (s, [])
  | s, k + 1, i =>
      let name := base ++ ("-clone-") ++ toString i
      let p := create_instance_from_snapshot s project zone name snapshot_name machine_type
      let q := cloneFleet project zone base snapshot_name machine_type p.1 k (i + 1)
      (q.1, (name, p.2) :: q.2)

/-- part2.py `main`'s orchestration (argument parsing, credentials and the
report writer are external): reconcile the snapshot from the base
instance's boot disk, then run the clone loop with the clone count. -/
def mainRun (s : CloudState) (project zone base machine_type : String) (count : Nat) :
    CloudState × Except PyErr (List (String × Nat)) :=
  let r := create_snapshot_from_instance_boot_disk s base
  match r.2 with
  | .error e => (r.1, .error e)
  | .ok snapshot_name =>
      let q := cloneFleet project zone base snapshot_name machine_type r.1 count 1
      (q.1, .ok q.2)

end Part2

namespace Part3

/-- part3/vm1-launch-vm2.py `wait_for_zone_op`: same loop, but on a DONE
answer with an `error` field it raises
`RuntimeError(str(result["error"]))` — the Python string rendering of the
payload, not the payload itself. -/
def wait_for_zone_op (obs : List Operation) : Option (Except PyErr Nat) :=
  (pollUntilDone obs).map fun
    | .success k => .ok k
    | .failed e _ => .error (.runtime (.str (pyRepr e)))

/-- part3/vm1-launch-vm2.py main's firewall block: the lookup is wrapped
in `try: ... except Exception:` — ANY lookup failure (not only 404) falls
into the create branch, which inserts the firewall and inline-polls the
global operation (raising `RuntimeError(str(r["error"]))` on a failed
one).  Returns the outcome (`none` when the inline poll never saw DONE)
and the list of mutating calls issued. -/
def ensure_firewall (lookupR : Except PyErr Json) (obs : List Operation) :
    Option (Except PyErr Unit) × List ApiCall :=
  match lookupR with
  | .ok _ => (some (.ok ()), [])
  | .error _ =>
      ((pollUntilDone obs).map fun
        | .success _ => .ok ()
        | .failed e _ => .error (.runtime (.str (pyRepr e))),
       [.firewallInsert ("allow-5001")])

end Part3

/-- Forget the error of a fallible computation, as `try/except` returning
`None` does. -/
def exceptToOption {α : Type} : Except PyErr α → Option α
  | .ok a => some a
  | .error _ => none

theorem exceptToOption_bind {α β : Type} (x : Except PyErr α) (f : α → Except PyErr β) :
    exceptToOption (x >>= f) = (exceptToOption x).bind fun a => exceptToOption (f a) := by
  cases x <;> rfl

theorem exceptToOption_optToExcept (e : PyErr) (o : Option Json) :
    exceptToOption (optToExcept e o) = o := by
  cases o <;> rfl

theorem exceptToOption_pyGetItem (j : Json) (k : String) :
    exceptToOption (pyGetItem j k) = j.objGet? k := by
  cases j <;> try rfl
  case obj kvs => exact exceptToOption_optToExcept _ _

theorem exceptToOption_pyGetIndex (j : Json) (i : Nat) :
    exceptToOption (pyGetIndex j i) = (match j with | .arr xs => xs.get? i | _ => none) := by
  cases j <;> try rfl
  case arr xs => exact exceptToOption_optToExcept _ _

/-- Claim C10: `get_external_ip` is total — for every instance description
of any shape it returns the first network interface's first access-config
NAT address when every nested field is present, and `None` otherwise; no
exception ever escapes it (missing keys, empty lists and `None` fields
included). -/
theorem get_external_ip_total (inst : Json) :
    Part1.get_external_ip inst = natIPOfSpec inst := by
  have h : Part1.get_external_ip inst = exceptToOption (Part1.get_external_ip_body inst) := by
    unfold Part1.get_external_ip
    cases Part1.get_external_ip_body inst <;> rfl
  rw [h]
  unfold Part1.get_external_ip_body natIPOfSpec
  simp only [exceptToOption_bind, exceptToOption_pyGetItem, exceptToOption_pyGetIndex]

theorem pollUntilDone_first_done_ok (pre : List Operation) (op : Operation)
    (rest : List Operation) (h : ∀ p ∈ pre, p.status ≠ ("DONE"))
    (hop : op.status = ("DONE")) (he : op.error = none) :
    pollUntilDone (pre ++ op :: rest) = some (.success (pre.length + 1)) := by
  induction pre with
  | nil => simp [pollUntilDone, hop, he]
  | cons p ps ih =>
      have hp : p.status ≠ ("DONE") := h p (by simp)
      have ih2 := ih (fun q hq => h q (by simp [hq]))
      simp [pollUntilDone, hp, ih2]

theorem pollUntilDone_first_done_err (pre : List Operation) (op : Operation)
    (rest : List Operation) (e : Json) (h : ∀ p ∈ pre, p.status ≠ ("DONE"))
    (hop : op.status = ("DONE")) (he : op.error = some e) :
    pollUntilDone (pre ++ op :: rest) = some (.failed e (pre.length + 1)) := by
  induction pre with
  | nil => simp [pollUntilDone, hop, he]
  | cons p ps ih =>
      have hp : p.status ≠ ("DONE") := h p (by simp)
      have ih2 := ih (fun q hq => h q (by simp [hq]))
      simp [pollUntilDone, hp, ih2]

/-- Claim C6: when the polled statuses first reach DONE (with no error) on
the k-th fetch, the operation pollers of part1 and part2 return success
after exactly k fetches, and the result does not depend on anything after
that fetch — no further polls are issued. -/
theorem op_polling_terminates (pre : List Operation) (op : Operation)
    (rest : List Operation) (h : ∀ p ∈ pre, p.status ≠ ("DONE"))
    (hop : op.status = ("DONE")) (he : op.error = none) :
    Part1.wait_for_zone_op (pre ++ op :: rest) = some (.ok (pre.length + 1)) ∧
    Part2.wait_for_global_op (pre ++ op :: rest) = some (.ok (pre.length + 1)) ∧
    Part1.wait_for_zone_op (pre ++ op :: rest) = Part1.wait_for_zone_op (pre ++ [op]) ∧
    Part2.wait_for_global_op (pre ++ op :: rest) = Part2.wait_for_global_op (pre ++ [op]) := by
  have h1 := pollUntilDone_first_done_ok pre op rest h hop he
  have h2 := pollUntilDone_first_done_ok pre op [] h hop he
  refine ⟨?_, ?_, ?_, ?_⟩ <;>
    simp [Part1.wait_for_zone_op, Part2.wait_for_global_op, h1, h2]

theorem op_polling_terminates_witness :
    Part1.wait_for_zone_op
        [⟨("PENDING"), none⟩, ⟨("RUNNING"), none⟩, ⟨("DONE"), none⟩, ⟨("DONE"), none⟩]
      = some (.ok 3) ∧
    Part2.wait_for_global_op
        [⟨("PENDING"), none⟩, ⟨("RUNNING"), none⟩, ⟨("DONE"), none⟩, ⟨("DONE"), none⟩]
      = some (.ok 3) := by
  have h := op_polling_terminates [⟨("PENDING"), none⟩, ⟨("RUNNING"), none⟩]
    ⟨("DONE"), none⟩ [⟨("DONE"), none⟩] (by decide) rfl rfl
  exact ⟨h.1, h.2.1⟩

/-- Claim C3 (amended): when the polled statuses first reach DONE carrying
an error payload, the part1 and part2 pollers fail with a `RuntimeError`
carrying that exact payload, and the part3 poller fails with a
`RuntimeError` carrying the payload's Python string rendering instead of
the payload itself; on a first DONE with no error payload every poller
returns success. -/
theorem awaitCompletion_error_payload (pre : List Operation) (op : Operation)
    (rest : List Operation) (h : ∀ p ∈ pre, p.status ≠ ("DONE"))
    (hop : op.status = ("DONE")) :
    (∀ e, op.error = some e →
      Part1.wait_for_zone_op (pre ++ op :: rest) = some (.error (.runtime e)) ∧
      Part1.wait_for_global_op (pre ++ op :: rest) = some (.error (.runtime e)) ∧
      Part2.wait_for_zone_op (pre ++ op :: rest) = some (.error (.runtime e)) ∧
      Part2.wait_for_global_op (pre ++ op :: rest) = some (.error (.runtime e)) ∧
      Part3.wait_for_zone_op (pre ++ op :: rest)
        = some (.error (.runtime (.str (pyRepr e))))) ∧
    (op.error = none →
      Part1.wait_for_zone_op (pre ++ op :: rest) = some (.ok (pre.length + 1)) ∧
      Part3.wait_for_zone_op (pre ++ op :: rest) = some (.ok (pre.length + 1))) := by
  constructor
  · intro e he
    have h1 := pollUntilDone_first_done_err pre op rest e h hop he
    refine ⟨?_, ?_, ?_, ?_, ?_⟩ <;>
      simp [Part1.wait_for_zone_op, Part1.wait_for_global_op,
            Part2.wait_for_zone_op, Part2.wait_for_global_op,
            Part3.wait_for_zone_op, h1]
  · intro he
    have h1 := pollUntilDone_first_done_ok pre op rest h hop he
    exact ⟨by simp [Part1.wait_for_zone_op, h1], by simp [Part3.wait_for_zone_op, h1]⟩

theorem awaitCompletion_error_payload_witness :
    Part1.wait_for_zone_op
        [⟨("RUNNING"), none⟩, ⟨("DONE"), some (.obj [(("code"), .str ("QUOTA_EXCEEDED"))])⟩]
      = some (.error (.runtime (.obj [(("code"), .str ("QUOTA_EXCEEDED"))]))) ∧
    Part2.wait_for_global_op
        [⟨("RUNNING"), none⟩, ⟨("DONE"), some (.obj [(("code"), .str ("QUOTA_EXCEEDED"))])⟩]
      = some (.error (.runtime (.obj [(("code"), .str ("QUOTA_EXCEEDED"))]))) := by
  have h := (awaitCompletion_error_payload [⟨("RUNNING"), none⟩]
      ⟨("DONE"), some (.obj [(("code"), .str ("QUOTA_EXCEEDED"))])⟩ []
      (by decide) rfl).1 (.obj [(("code"), .str ("QUOTA_EXCEEDED"))]) rfl
  exact ⟨h.1, h.2.2.2.1⟩

/-- Claim C3 counterexample: for a terminal operation whose error payload
is the object `{code: QUOTA_EXCEEDED}`, the part3 poller
(`vm1-launch-vm2.py`) raises `RuntimeError` carrying the string rendering
of the payload, not the payload itself — so `awaitCompletion` does not
carry "that exact payload" there. -/
theorem part3_error_payload_stringified :
    Part3.wait_for_zone_op [⟨("DONE"), some (.obj [(("code"), .str ("QUOTA_EXCEEDED"))])⟩]
      = some (.error (.runtime (.str ("\x7b\x27code\x27: \x27QUOTA_EXCEEDED\x27\x7d")))) ∧
    Part3.wait_for_zone_op [⟨("DONE"), some (.obj [(("code"), .str ("QUOTA_EXCEEDED"))])⟩]
      ≠ some (.error (.runtime (.obj [(("code"), .str ("QUOTA_EXCEEDED"))]))) := by
  constructor
  · rfl
  · intro hc
    rw [show Part3.wait_for_zone_op
          [⟨("DONE"), some (.obj [(("code"), .str ("QUOTA_EXCEEDED"))])⟩]
        = some (.error (.runtime (.str ("\x7b\x27code\x27: \x27QUOTA_EXCEEDED\x27\x7d"))))
        from rfl] at hc
    simp only [Option.some.injEq, Except.error.injEq, PyErr.runtime.injEq] at hc
    exact Json.noConfusion hc

theorem wait_external_ip_timeout (lookups : Nat → Option Json)
    (h : ∀ j, Part1.attemptIp (lookups j) = none) :
    ∀ n i, Part1.wait_external_ip lookups n i = (.error Part1.timeoutErr, n) := by
  intro n
  induction n with
  | zero => intro i; rfl
  | succ m ih =>
      intro i
      simp [Part1.wait_external_ip, h i, ih (i + 1)]

theorem wait_external_ip_first (lookups : Nat → Option Json) :
    ∀ k n i v, k < n → (∀ j, j < k → Part1.attemptIp (lookups (i + j)) = none) →
    Part1.attemptIp (lookups (i + k)) = some v →
    Part1.wait_external_ip lookups n i = (.ok v, k + 1) := by
  intro k
  induction k with
  | zero =>
      intro n i v hn _ hit
      obtain ⟨m, rfl⟩ : ∃ m, n = m + 1 := ⟨n - 1, by omega⟩
      rw [Nat.add_zero] at hit
      simp [Part1.wait_external_ip, hit]
  | succ k ih =>
      intro n i v hn hnone hit
      obtain ⟨m, rfl⟩ : ∃ m, n = m + 1 := ⟨n - 1, by omega⟩
      have h0 : Part1.attemptIp (lookups i) = none := by
        simpa using hnone 0 (by omega)
      have hrec := ih m (i + 1) v (by omega)
        (fun j hj => by
          have := hnone (j + 1) (by omega)
          simpa [Nat.add_assoc, Nat.add_comm 1 j] using this)
        (by
          have : i + (k + 1) = i + 1 + k := by omega
          rw [this] at hit
          exact hit)
      simp [Part1.wait_external_ip, h0, hrec]

theorem wait_external_ip_error_is_timeout (lookups : Nat → Option Json) :
    ∀ n i e c, Part1.wait_external_ip lookups n i = (.error e, c) →
    e = Part1.timeoutErr := by
  intro n
  induction n with
  | zero =>
      intro i e c h
      simp only [Part1.wait_external_ip, Prod.mk.injEq] at h
      exact (Except.error.inj h.1.symm)
  | succ m ih =>
      intro i e c h
      simp only [Part1.wait_external_ip] at h
      cases hat : Part1.attemptIp (lookups i) with
      | some v =>
          rw [hat] at h
          simp only [Prod.mk.injEq] at h
          exact absurd h.1 (by intro hc; exact Except.noConfusion hc)
      | none =>
          rw [hat] at h
          simp only [Prod.mk.injEq] at h
          have := ih (i + 1) e (Part1.wait_external_ip lookups m (i + 1)).2
            (by rw [← h.1])
          exact this

/-- Claim C5: with attempt budget n, the readiness loop performs exactly n
lookups and fails with the fixed Timeout error when no lookup ever yields
a (truthy) address — including lookups whose descriptions lack the nested
fields, which are retried, never erroring; when the first address appears
on lookup k it returns that address after exactly k + 1 lookups (k
0-based); the loop's only failure value is the Timeout error, and that
error is distinct from every `OperationFailed` the pollers raise for a
provider error object. -/
theorem readiness_wait_bounded (lookups : Nat → Option Json) (n : Nat) :
    ((∀ j, Part1.attemptIp (lookups j) = none) →
        Part1.wait_external_ip lookups n 0 = (.error Part1.timeoutErr, n)) ∧
    (∀ k v, k < n → (∀ j, j < k → Part1.attemptIp (lookups j) = none) →
        Part1.attemptIp (lookups k) = some v →
        Part1.wait_external_ip lookups n 0 = (.ok v, k + 1)) ∧
    (∀ e c, Part1.wait_external_ip lookups n 0 = (.error e, c) →
        e = Part1.timeoutErr) ∧
    (∀ kvs : List (String × Json), Part1.timeoutErr ≠ .runtime (.obj kvs)) := by
  refine ⟨fun h => wait_external_ip_timeout lookups h n 0, ?_, ?_, ?_⟩
  · intro k v hk hnone hit
    exact wait_external_ip_first lookups k n 0 v hk
      (fun j hj => by simpa using hnone j hj) (by simpa using hit)
  · intro e c h
    exact wait_external_ip_error_is_timeout lookups n 0 e c h
  · intro kvs hc
    simp only [Part1.timeoutErr, PyErr.runtime.injEq] at hc
    exact Json.noConfusion hc

theorem readiness_wait_bounded_witness :
    Part1.wait_external_ip (fun _ => none) 5 0 = (.error Part1.timeoutErr, 5) ∧
    Part1.wait_external_ip
        (fun j => if j < 2 then none else some (Json.obj [(("networkInterfaces"),
          Json.arr [Json.obj [(("accessConfigs"),
            Json.arr [Json.obj [(("natIP"), Json.str ("35.0.0.1"))]])]])]))
        5 0
      = (.ok (.str ("35.0.0.1")), 3) := by
  constructor
  · exact (readiness_wait_bounded (fun _ => none) 5).1 (fun j => rfl)
  · exact (readiness_wait_bounded _ 5).2.1 2 (.str ("35.0.0.1")) (by omega)
      (fun j hj => by
        match j with
        | 0 => rfl
        | 1 => rfl
        | m + 2 => exact absurd hj (by omega))
      rfl

/-- Number of boot-source keys (`sourceImage` / `sourceSnapshot`) in one
disk entry's `initializeParams` of a creation request. -/
def bootSourceCountDisk (d : Json) : Nat :=
  match d.objGet? ("initializeParams") with
  | some p => (if p.hasKey ("sourceImage") then 1 else 0) +
              (if p.hasKey ("sourceSnapshot") then 1 else 0)
  | none => 0

/-- Total number of boot-source keys across a creation request's disks. -/
def bootSourceCount (cfg : Json) : Nat :=
  match cfg.objGet? ("disks") with
  | some (Json.arr ds) => (ds.map bootSourceCountDisk).sum
  | _ => 0

/-- Modelled from the spec: `InstanceSpec.bootSource` is "oneof {imageRef,
snapshotRef}" — a discriminated choice.  No creation site in the source
files constructs such a value with both alternatives; each hard-codes
exactly one, so a both-sources spec is unrepresentable. -/
inductive BootSource where
  | image (ref : String)
  | snapshot (ref : String)

/-- Is the boot source an image reference? -/
def BootSource.isImage : BootSource → Bool
  | .image _ => true
  | .snapshot _ => false

/-- Is the boot source a snapshot reference? -/
def BootSource.isSnapshot : BootSource → Bool
  | .image _ => false
  | .snapshot _ => true

/-- Claim C4: every submitted instance-creation request carries exactly one
of the two boot sources — part1's image-booted config and part2's
snapshot-booted clone config each carry exactly one boot-source key for
every choice of parameters — and the spec-level `InstanceSpec` boot source
is a discriminated choice, image exactly when not snapshot, so a request
with both can never be constructed (there is nothing to reject at run
time). -/
theorem boot_source_exclusivity (project zone name machine_type tag snapshot_name : String) :
    bootSourceCount (Part1.instance_config project zone name machine_type tag) = 1 ∧
    bootSourceCount (Part2.clone_config project zone name snapshot_name machine_type) = 1 ∧
    (∀ b : BootSource, b.isImage = !b.isSnapshot) := by
  refine ⟨rfl, rfl, ?_⟩
  intro b
  cases b <;> rfl

/-- Number of mutating (create) calls in a trace. -/
def createCallCount (tr : List ApiCall) : Nat :=
  tr.countP fun c =>
    match c with
    | .firewallInsert _ => true
    | .instanceInsert _ => true
    | .snapshotCreate _ _ => true
    | _ => false

theorem ensure_firewall_present (s : CloudState) (name : String)
    (h : s.firewalls.contains name = true) :
    Part1.ensure_firewall_allow_5000 s name
      = ({ s with trace := s.trace ++ [.firewallGet name] }, .existing) := by
  obtain ⟨fw, is, sn, tr, tm⟩ := s
  simp_all [Part1.ensure_firewall_allow_5000, Part1.firewall_existsS]

theorem ensure_firewall_absent (s : CloudState) (name : String)
    (h : s.firewalls.contains name = false) :
    Part1.ensure_firewall_allow_5000 s name
      = ({ s with firewalls := name :: s.firewalls,
                  trace := s.trace ++ [.firewallGet name, .firewallInsert name, .awaitGlobalOp name],
                  time := s.time + 1 }, .created) := by
  obtain ⟨fw, is, sn, tr, tm⟩ := s
  simp_all [Part1.ensure_firewall_allow_5000, Part1.firewall_existsS, awaitGlobalOpS]

theorem create_instance_present (s : CloudState) (project zone name snapshot_name machine_type : String)
    (h : s.instances.any (fun kv => kv.1 == name) = true) :
    Part2.create_instance_from_snapshot s project zone name snapshot_name machine_type
      = ({ s with trace := s.trace ++ [.instanceGet name] }, 0) := by
  obtain ⟨fw, is, sn, tr, tm⟩ := s
  simp_all [Part2.create_instance_from_snapshot, Part2.instance_existsS]

theorem create_instance_absent (s : CloudState) (project zone name snapshot_name machine_type : String)
    (h : s.instances.any (fun kv => kv.1 == name) = false) :
    Part2.create_instance_from_snapshot s project zone name snapshot_name machine_type
      = ({ s with instances := (name, Part2.clone_config project zone name snapshot_name machine_type) :: s.instances,
                  trace := s.trace ++ [.instanceGet name, .instanceInsert name, .awaitZoneOp name],
                  time := s.time + 1 }, 1) := by
  obtain ⟨fw, is, sn, tr, tm⟩ := s
  simp_all [Part2.create_instance_from_snapshot, Part2.instance_existsS, awaitZoneOpS]
  intro x hx
  exact h name x hx rfl

theorem create_snapshot_existing (s : CloudState) (base : String) (inst d : Json)
    (ds : List Json) (src : String)
    (hinst : lookupInstance s base = some inst)
    (hds : Part2.disksListE inst = .ok ds)
    (hboot : Part2.findBootDisk ds = .ok (some d))
    (hsrc : pyGetItem d ("source") = .ok (.str src))
    (hpres : s.snapshots.contains (("base-snapshot-") ++ base) = true) :
    Part2.create_snapshot_from_instance_boot_disk s base
      = ({ s with trace := s.trace ++ [.instanceGet base, .snapshotGet (("base-snapshot-") ++ base)] },
         .ok (("base-snapshot-") ++ base)) := by
  obtain ⟨fw, is, sn, tr, tm⟩ := s
  simp_all [Part2.create_snapshot_from_instance_boot_disk]

theorem create_snapshot_absent (s : CloudState) (base : String) (inst d : Json)
    (ds : List Json) (src : String)
    (hinst : lookupInstance s base = some inst)
    (hds : Part2.disksListE inst = .ok ds)
    (hboot : Part2.findBootDisk ds = .ok (some d))
    (hsrc : pyGetItem d ("source") = .ok (.str src))
    (habs : s.snapshots.contains (("base-snapshot-") ++ base) = false) :
    Part2.create_snapshot_from_instance_boot_disk s base
      = ({ s with snapshots := (("base-snapshot-") ++ base) :: s.snapshots,
                  trace := s.trace ++
                    [.instanceGet base, .snapshotGet (("base-snapshot-") ++ base),
                     .snapshotCreate (Part2.diskNameOf src) (("base-snapshot-") ++ base),
                     .awaitZoneOp (("base-snapshot-") ++ base)],
                  time := s.time + 1 },
         .ok (("base-snapshot-") ++ base)) := by
  obtain ⟨fw, is, sn, tr, tm⟩ := s
  simp_all [Part2.create_snapshot_from_instance_boot_disk, awaitZoneOpS]

/-- Claim C1: for each reconciled resource kind (firewall, instance,
snapshot), running ensure twice in succession issues exactly one create
call and both runs report success; and whenever the lookup finds the
resource, ensure returns the existing-resource outcome having issued only
the lookup — no create or other mutating call, no inventory change. -/
theorem ensure_twice_single_create (s : CloudState)
    (project zone name snapshot_name machine_type base : String)
    (inst d : Json) (ds : List Json) (src : String) :
    (s.firewalls.contains name = false →
      (Part1.ensure_firewall_allow_5000 s name).2 = .created ∧
      (Part1.ensure_firewall_allow_5000 (Part1.ensure_firewall_allow_5000 s name).1 name).2
        = .existing ∧
      createCallCount
          (Part1.ensure_firewall_allow_5000 (Part1.ensure_firewall_allow_5000 s name).1 name).1.trace
        = createCallCount s.trace + 1) ∧
    (s.firewalls.contains name = true →
      Part1.ensure_firewall_allow_5000 s name
        = ({ s with trace := s.trace ++ [.firewallGet name] }, .existing)) ∧
    (s.instances.any (fun kv => kv.1 == name) = false →
      (Part2.create_instance_from_snapshot s project zone name snapshot_name machine_type).2 = 1 ∧
      (Part2.create_instance_from_snapshot
          (Part2.create_instance_from_snapshot s project zone name snapshot_name machine_type).1
          project zone name snapshot_name machine_type).2 = 0 ∧
      createCallCount
          (Part2.create_instance_from_snapshot
            (Part2.create_instance_from_snapshot s project zone name snapshot_name machine_type).1
            project zone name snapshot_name machine_type).1.trace
        = createCallCount s.trace + 1) ∧
    (s.instances.any (fun kv => kv.1 == name) = true →
      Part2.create_instance_from_snapshot s project zone name snapshot_name machine_type
        = ({ s with trace := s.trace ++ [.instanceGet name] }, 0)) ∧
    (lookupInstance s base = some inst → Part2.disksListE inst = .ok ds →
     Part2.findBootDisk ds = .ok (some d) → pyGetItem d ("source") = .ok (.str src) →
     s.snapshots.contains (("base-snapshot-") ++ base) = false →
      (Part2.create_snapshot_from_instance_boot_disk s base).2
        = .ok (("base-snapshot-") ++ base) ∧
      (Part2.create_snapshot_from_instance_boot_disk
          (Part2.create_snapshot_from_instance_boot_disk s base).1 base).2
        = .ok (("base-snapshot-") ++ base) ∧
      createCallCount
          (Part2.create_snapshot_from_instance_boot_disk
            (Part2.create_snapshot_from_instance_boot_disk s base).1 base).1.trace
        = createCallCount s.trace + 1) ∧
    (lookupInstance s base = some inst → Part2.disksListE inst = .ok ds →
     Part2.findBootDisk ds = .ok (some d) → pyGetItem d ("source") = .ok (.str src) →
     s.snapshots.contains (("base-snapshot-") ++ base) = true →
      Part2.create_snapshot_from_instance_boot_disk s base
        = ({ s with trace := s.trace ++
              [.instanceGet base, .snapshotGet (("base-snapshot-") ++ base)] },
           .ok (("base-snapshot-") ++ base))) := by
  refine ⟨?_, ?_, ?_, ?_, ?_, ?_⟩
  · intro h
    rw [ensure_firewall_absent s name h]
    rw [ensure_firewall_present _ name (by simp)]
    refine ⟨rfl, rfl, ?_⟩
    simp [createCallCount, List.countP_append, List.countP_cons]
  · intro h
    exact ensure_firewall_present s name h
  · intro h
    rw [create_instance_absent s project zone name snapshot_name machine_type h]
    rw [create_instance_present _ project zone name snapshot_name machine_type (by simp)]
    refine ⟨rfl, rfl, ?_⟩
    simp [createCallCount, List.countP_append, List.countP_cons]
  · intro h
    exact create_instance_present s project zone name snapshot_name machine_type h
  · intro hinst hds hboot hsrc habs
    have h1 := create_snapshot_absent s base inst d ds src hinst hds hboot hsrc habs
    have h1fst : (Part2.create_snapshot_from_instance_boot_disk s base).1
        = { s with snapshots := (("base-snapshot-") ++ base) :: s.snapshots,
                   trace := s.trace ++
                     [.instanceGet base, .snapshotGet (("base-snapshot-") ++ base),
                      .snapshotCreate (Part2.diskNameOf src) (("base-snapshot-") ++ base),
                      .awaitZoneOp (("base-snapshot-") ++ base)],
                   time := s.time + 1 } := by rw [h1]
    have h2 := create_snapshot_existing
      ({ s with snapshots := (("base-snapshot-") ++ base) :: s.snapshots,
                trace := s.trace ++
                  [.instanceGet base, .snapshotGet (("base-snapshot-") ++ base),
                   .snapshotCreate (Part2.diskNameOf src) (("base-snapshot-") ++ base),
                   .awaitZoneOp (("base-snapshot-") ++ base)],
                time := s.time + 1 })
      base inst d ds src hinst hds hboot hsrc (by simp)
    refine ⟨by rw [h1], ?_, ?_⟩
    · rw [h1fst, h2]
    · rw [h1fst, h2]
      simp [createCallCount, List.countP_append, List.countP_cons]
  · intro hinst hds hboot hsrc hpres
    exact create_snapshot_existing s base inst d ds src hinst hds hboot hsrc hpres

theorem ensure_twice_single_create_witness :
    (Part1.ensure_firewall_allow_5000
        (Part1.ensure_firewall_allow_5000 ⟨[], [], [], [], 0⟩ ("allow-5000")).1 ("allow-5000")).2
      = .existing ∧
    createCallCount
        (Part2.create_snapshot_from_instance_boot_disk
          (Part2.create_snapshot_from_instance_boot_disk
            ⟨[], [(("flask-vm"),
              .obj [(("disks"), .arr [.obj [(("boot"), .bool true),
                (("source"), .str ("projects/p/zones/z/disks/d0"))]])])], [], [], 0⟩
            ("flask-vm")).1 ("flask-vm")).1.trace
      = 1 := by
  constructor
  · exact ((ensure_twice_single_create ⟨[], [], [], [], 0⟩ ("p") ("z") ("allow-5000") ("sn") ("mt")
      ("flask-vm") .null .null [] ("s")).1 rfl).2.1
  · exact ((ensure_twice_single_create
      ⟨[], [(("flask-vm"),
        .obj [(("disks"), .arr [.obj [(("boot"), .bool true),
          (("source"), .str ("projects/p/zones/z/disks/d0"))]])])], [], [], 0⟩
      ("p") ("z") ("nm") ("sn") ("mt") ("flask-vm")
      (.obj [(("disks"), .arr [.obj [(("boot"), .bool true),
        (("source"), .str ("projects/p/zones/z/disks/d0"))]])])
      (.obj [(("boot"), .bool true), (("source"), .str ("projects/p/zones/z/disks/d0"))])
      [.obj [(("boot"), .bool true), (("source"), .str ("projects/p/zones/z/disks/d0"))]]
      ("projects/p/zones/z/disks/d0")).2.2.2.2.1
      rfl rfl rfl rfl rfl).2.2

/-- The deterministic clone names `<base>-clone-1` .. `<base>-clone-count`,
in ascending order. -/
def cloneNames (base : String) (count : Nat) : List String :=
  (List.range count).map fun j => base ++ ("-clone-") ++ toString (j + 1)

/-- The instance point lookups recorded in a trace, in order.  The clone
loop performs exactly one per `create_instance_from_snapshot` invocation,
so these list the invocations. -/
def instanceLookups (tr : List ApiCall) : List String :=
  tr.filterMap fun c =>
    match c with
    | .instanceGet n => some n
    | _ => none

theorem instanceLookups_create (s : CloudState)
    (project zone name snapshot_name machine_type : String) :
    instanceLookups
        (Part2.create_instance_from_snapshot s project zone name snapshot_name machine_type).1.trace
      = instanceLookups s.trace ++ [name] := by
  by_cases h : s.instances.any (fun kv => kv.1 == name) = true
  · rw [create_instance_present s project zone name snapshot_name machine_type h]
    simp [instanceLookups, List.filterMap_append]
  · have h' : s.instances.any (fun kv => kv.1 == name) = false := by
      cases hv : s.instances.any (fun kv => kv.1 == name)
      · rfl
      · exact absurd hv h
    rw [create_instance_absent s project zone name snapshot_name machine_type h']
    simp [instanceLookups, List.filterMap_append]

theorem cloneFleet_spec (project zone base snapshot_name machine_type : String) :
    ∀ (k i : Nat) (s : CloudState),
      ((Part2.cloneFleet project zone base snapshot_name machine_type s k i).2).map Prod.fst
        = (List.range k).map (fun j => base ++ ("-clone-") ++ toString (i + j)) ∧
      instanceLookups (Part2.cloneFleet project zone base snapshot_name machine_type s k i).1.trace
        = instanceLookups s.trace
            ++ (List.range k).map (fun j => base ++ ("-clone-") ++ toString (i + j)) := by
  intro k
  induction k with
  | zero => intro i s; simp [Part2.cloneFleet]
  | succ k ih =>
      intro i s
      have hfun : (fun j => base ++ ("-clone-") ++ toString (i + 1 + j))
          = (fun j => base ++ ("-clone-") ++ toString (i + (j + 1))) := by
        funext j
        have : i + 1 + j = i + (j + 1) := by omega
        rw [this]
      obtain ⟨ihm, iht⟩ := ih (i + 1)
        ((Part2.create_instance_from_snapshot s project zone
          (base ++ ("-clone-") ++ toString i) snapshot_name machine_type).1)
      constructor
      · show (base ++ ("-clone-") ++ toString i) ::
            ((Part2.cloneFleet project zone base snapshot_name machine_type _ k (i + 1)).2).map Prod.fst
          = _
        rw [ihm, List.range_succ_eq_map, List.map_cons, List.map_map, hfun]
        simp [Function.comp_def]
      · show instanceLookups
            (Part2.cloneFleet project zone base snapshot_name machine_type
              (Part2.create_instance_from_snapshot s project zone
                (base ++ ("-clone-") ++ toString i) snapshot_name machine_type).1 k (i + 1)).1.trace
          = _
        rw [iht, instanceLookups_create, List.range_succ_eq_map, List.map_cons, List.map_map, hfun]
        simp [Function.comp_def]

/-- Claim C7: the clone loop with count n issues exactly n
`create_instance_from_snapshot` invocations (visible as exactly n instance
point lookups appended to the trace, in order), derives the instance names
`<base>-clone-1` through `<base>-clone-n` in that ascending order, and
appends exactly one timing record per invocation carrying that name. -/
theorem clone_fleet_naming (project zone base snapshot_name machine_type : String)
    (s : CloudState) (count : Nat) (_hcount : 1 ≤ count) :
    ((Part2.cloneFleet project zone base snapshot_name machine_type s count 1).2).map Prod.fst
      = cloneNames base count ∧
    ((Part2.cloneFleet project zone base snapshot_name machine_type s count 1).2).length
      = count ∧
    instanceLookups
        (Part2.cloneFleet project zone base snapshot_name machine_type s count 1).1.trace
      = instanceLookups s.trace ++ cloneNames base count := by
  have h := cloneFleet_spec project zone base snapshot_name machine_type count 1 s
  have hfun : (fun j => base ++ ("-clone-") ++ toString (1 + j))
      = (fun j => base ++ ("-clone-") ++ toString (j + 1)) := by
    funext j
    have : 1 + j = j + 1 := by omega
    rw [this]
  refine ⟨?_, ?_, ?_⟩
  · rw [h.1, cloneNames, ← hfun]
  · have := congrArg List.length h.1
    simpa [cloneNames] using this
  · rw [h.2, cloneNames, ← hfun]

theorem clone_fleet_naming_witness :
    ((Part2.cloneFleet ("p") ("z") ("base") ("snap") ("mt") ⟨[], [], [], [], 0⟩ 3 1).2).map Prod.fst
      = [("base-clone-1"), ("base-clone-2"), ("base-clone-3")] ∧
    instanceLookups
        (Part2.cloneFleet ("p") ("z") ("base") ("snap") ("mt") ⟨[], [], [], [], 0⟩ 3 1).1.trace
      = [("base-clone-1"), ("base-clone-2"), ("base-clone-3")] := by
  have h := clone_fleet_naming ("p") ("z") ("base") ("snap") ("mt") ⟨[], [], [], [], 0⟩ 3
    (by omega)
  refine ⟨?_, ?_⟩
  · rw [h.1]; rfl
  · rw [h.2.2]; rfl

theorem create_instance_trace_extends (s : CloudState)
    (project zone name snapshot_name machine_type : String) :
    ∃ d, (Part2.create_instance_from_snapshot s project zone name snapshot_name machine_type).1.trace
      = s.trace ++ d := by
  by_cases h : s.instances.any (fun kv => kv.1 == name) = true
  · exact ⟨[.instanceGet name], by
      rw [create_instance_present s project zone name snapshot_name machine_type h]⟩
  · have h' : s.instances.any (fun kv => kv.1 == name) = false := by
      cases hv : s.instances.any (fun kv => kv.1 == name)
      · rfl
      · exact absurd hv h
    exact ⟨[.instanceGet name, .instanceInsert name, .awaitZoneOp name], by
      rw [create_instance_absent s project zone name snapshot_name machine_type h']⟩

theorem cloneFleet_trace_extends (project zone base snapshot_name machine_type : String) :
    ∀ (k i : Nat) (s : CloudState),
      ∃ d, (Part2.cloneFleet project zone base snapshot_name machine_type s k i).1.trace
        = s.trace ++ d := by
  intro k
  induction k with
  | zero => intro i s; exact ⟨[], by simp [Part2.cloneFleet]⟩
  | succ k ih =>
      intro i s
      obtain ⟨d0, hd0⟩ := create_instance_trace_extends s project zone
        (base ++ ("-clone-") ++ toString i) snapshot_name machine_type
      obtain ⟨d1, hd1⟩ := ih (i + 1)
        ((Part2.create_instance_from_snapshot s project zone
          (base ++ ("-clone-") ++ toString i) snapshot_name machine_type).1)
      refine ⟨d0 ++ d1, ?_⟩
      show (Part2.cloneFleet project zone base snapshot_name machine_type
          (Part2.create_instance_from_snapshot s project zone
            (base ++ ("-clone-") ++ toString i) snapshot_name machine_type).1 k (i + 1)).1.trace
        = s.trace ++ (d0 ++ d1)
      rw [hd1, hd0, List.append_assoc]

/-- Claim C8: in a part2 run that creates the snapshot, the snapshot
operation's completed wait (`awaitZoneOp` for the snapshot) appears in the
trace strictly before every clone-creation request: the trace splits at
that wait, and no `instanceInsert` occurs before it. -/
theorem snapshot_awaited_before_clones (s : CloudState)
    (project zone base machine_type : String) (count : Nat)
    (inst d : Json) (ds : List Json) (src : String)
    (htr : s.trace = [])
    (hinst : lookupInstance s base = some inst)
    (hds : Part2.disksListE inst = .ok ds)
    (hboot : Part2.findBootDisk ds = .ok (some d))
    (hsrc : pyGetItem d ("source") = .ok (.str src))
    (habs : s.snapshots.contains (("base-snapshot-") ++ base) = false) :
    ∃ pre post,
      (Part2.mainRun s project zone base machine_type count).1.trace
        = pre ++ .awaitZoneOp (("base-snapshot-") ++ base) :: post ∧
      ∀ c ∈ pre, ∀ n, c ≠ .instanceInsert n := by
  have h1 := create_snapshot_absent s base inst d ds src hinst hds hboot hsrc habs
  obtain ⟨dlt, hd⟩ := cloneFleet_trace_extends project zone base
    (("base-snapshot-") ++ base) machine_type count 1
    ({ s with snapshots := (("base-snapshot-") ++ base) :: s.snapshots,
              trace := s.trace ++
                [.instanceGet base, .snapshotGet (("base-snapshot-") ++ base),
                 .snapshotCreate (Part2.diskNameOf src) (("base-snapshot-") ++ base),
                 .awaitZoneOp (("base-snapshot-") ++ base)],
              time := s.time + 1 })
  refine ⟨[.instanceGet base, .snapshotGet (("base-snapshot-") ++ base),
           .snapshotCreate (Part2.diskNameOf src) (("base-snapshot-") ++ base)],
          dlt, ?_, ?_⟩
  · show (Part2.mainRun s project zone base machine_type count).1.trace = _
    simp only [Part2.mainRun, h1]
    rw [hd]
    simp [htr]
  · intro c hc n
    simp only [List.mem_cons, List.mem_singleton, List.not_mem_nil, or_false] at hc
    rcases hc with rfl | rfl | rfl <;> intro hcontra <;> exact ApiCall.noConfusion hcontra

theorem snapshot_awaited_before_clones_witness :
    ∃ pre post,
      (Part2.mainRun
          ⟨[], [(("flask-vm"),
            .obj [(("disks"), .arr [.obj [(("boot"), .bool true),
              (("source"), .str ("projects/p/zones/z/disks/d0"))]])])], [], [], 0⟩
          ("p") ("z") ("flask-vm") ("mt") 2).1.trace
        = pre ++ ApiCall.awaitZoneOp (("base-snapshot-flask-vm")) :: post ∧
      ∀ c ∈ pre, ∀ n, c ≠ ApiCall.instanceInsert n := by
  exact snapshot_awaited_before_clones
    ⟨[], [(("flask-vm"),
      .obj [(("disks"), .arr [.obj [(("boot"), .bool true),
        (("source"), .str ("projects/p/zones/z/disks/d0"))]])])], [], [], 0⟩
    ("p") ("z") ("flask-vm") ("mt") 2
    (.obj [(("disks"), .arr [.obj [(("boot"), .bool true),
      (("source"), .str ("projects/p/zones/z/disks/d0"))]])])
    (.obj [(("boot"), .bool true), (("source"), .str ("projects/p/zones/z/disks/d0"))])
    [.obj [(("boot"), .bool true), (("source"), .str ("projects/p/zones/z/disks/d0"))]]
    ("projects/p/zones/z/disks/d0")
    rfl rfl rfl rfl rfl rfl

theorem findBootDisk_none (ds : List Json)
    (h : ∀ x ∈ ds, Part2.bootFlagE x = .ok false) :
    Part2.findBootDisk ds = .ok none := by
  induction ds with
  | nil => rfl
  | cons x xs ih =>
      have hx := h x (by simp)
      have ihx := ih (fun y hy => h y (by simp [hy]))
      simp [Part2.findBootDisk, hx, ihx]

/-- Claim C9: when the base instance's disk list has no disk with a truthy
`boot` flag, snapshot creation fails with the fixed boot-disk error having
issued only the base-instance lookup — no snapshot lookup, no snapshot
create, no inventory change; and the base-instance lookup itself is the
unguarded part2 `instance_get`, so a missing base instance surfaces as the
provider's 404 error rather than triggering any creation. -/
theorem snapshot_requires_boot_disk (s : CloudState) (base : String)
    (inst : Json) (ds : List Json) :
    (lookupInstance s base = some inst → Part2.disksListE inst = .ok ds →
     (∀ x ∈ ds, Part2.bootFlagE x = .ok false) →
      Part2.create_snapshot_from_instance_boot_disk s base
        = ({ s with trace := s.trace ++ [.instanceGet base] },
           .error (.runtime (.str ("Could not find boot disk on instance"))))) ∧
    (lookupInstance s base = none →
      Part2.create_snapshot_from_instance_boot_disk s base
        = ({ s with trace := s.trace ++ [.instanceGet base] },
           .error (.http ⟨404⟩))) := by
  constructor
  · intro hinst hds hnone
    have hb := findBootDisk_none ds hnone
    obtain ⟨fw, is, sn, tr, tm⟩ := s
    simp_all [Part2.create_snapshot_from_instance_boot_disk]
  · intro hmiss
    obtain ⟨fw, is, sn, tr, tm⟩ := s
    simp_all [Part2.create_snapshot_from_instance_boot_disk]

theorem snapshot_requires_boot_disk_witness :
    Part2.create_snapshot_from_instance_boot_disk
        ⟨[], [(("flask-vm"), .obj [(("disks"), .arr [.obj [(("boot"), .bool false)]])])],
         [], [], 0⟩ ("flask-vm")
      = (⟨[], [(("flask-vm"), .obj [(("disks"), .arr [.obj [(("boot"), .bool false)]])])],
          [], [ApiCall.instanceGet ("flask-vm")], 0⟩,
         .error (.runtime (.str ("Could not find boot disk on instance")))) ∧
    Part2.create_snapshot_from_instance_boot_disk ⟨[], [], [], [], 0⟩ ("flask-vm")
      = (⟨[], [], [], [ApiCall.instanceGet ("flask-vm")], 0⟩, .error (.http ⟨404⟩)) := by
  constructor
  · exact (snapshot_requires_boot_disk
      ⟨[], [(("flask-vm"), .obj [(("disks"), .arr [.obj [(("boot"), .bool false)]])])],
       [], [], 0⟩ ("flask-vm")
      (.obj [(("disks"), .arr [.obj [(("boot"), .bool false)]])])
      [.obj [(("boot"), .bool false)]]).1 rfl rfl
      (by
        intro x hx
        simp only [List.mem_singleton] at hx
        subst hx
        rfl)
  · exact (snapshot_requires_boot_disk ⟨[], [], [], [], 0⟩ ("flask-vm") .null []).2 rfl

/-- Claim C2 (amended): for the guarded lookups of part1 and part2
(`firewall_exists`, part1's `instance_get`, `snapshot_get`,
`instance_exists`), exactly the 404 failure is treated as absence —
recovered locally, never surfaced — and every other lookup failure
propagates unchanged; but the part3 firewall lookup
(`vm1-launch-vm2.py`, bare `except Exception`) instead treats EVERY lookup
failure as absence and proceeds to create, and part2's base-instance
`instance_get` is unguarded, propagating even 404 to the caller. -/
theorem lookup_error_routing :
    (∀ e : HttpError, e.status ≠ 404 →
        Part1.firewall_exists (.error e) = .error e) ∧
    (∀ e : HttpError, e.status = 404 →
        Part1.firewall_exists (.error e) = .ok false) ∧
    (∀ j : Json, Part1.firewall_exists (.ok j) = .ok true) ∧
    (∀ e : HttpError, e.status ≠ 404 →
        Part1.instance_get (.error e) = .error e) ∧
    (∀ e : HttpError, e.status = 404 →
        Part1.instance_get (.error e) = .ok none) ∧
    (∀ e : HttpError, e.status ≠ 404 →
        Part2.snapshot_get (.error e) = .error e) ∧
    (∀ e : HttpError, e.status = 404 →
        Part2.snapshot_get (.error e) = .ok none) ∧
    (∀ e : HttpError, e.status ≠ 404 →
        Part2.instance_exists (.error e) = .error e) ∧
    (∀ e : HttpError, e.status = 404 →
        Part2.instance_exists (.error e) = .ok false) ∧
    (∀ (err : PyErr) (obs : List Operation),
        (Part3.ensure_firewall (.error err) obs).2
          = [.firewallInsert ("allow-5001")]) ∧
    (∀ r : Except HttpError Json, Part2.instance_get r = r) := by
  refine ⟨?_, ?_, ?_, ?_, ?_, ?_, ?_, ?_, ?_, ?_, ?_⟩
  · intro e he; simp [Part1.firewall_exists, he]
  · intro e he; simp [Part1.firewall_exists, he]
  · intro j; rfl
  · intro e he; simp [Part1.instance_get, he]
  · intro e he; simp [Part1.instance_get, he]
  · intro e he; simp [Part2.snapshot_get, he]
  · intro e he; simp [Part2.snapshot_get, he]
  · intro e he; simp [Part2.instance_exists, he]
  · intro e he; simp [Part2.instance_exists, he]
  · intro err obs; rfl
  · intro r; rfl

theorem lookup_error_routing_witness :
    Part1.firewall_exists (.error ⟨403⟩) = .error ⟨403⟩ ∧
    Part1.firewall_exists (.error ⟨404⟩) = .ok false ∧
    Part2.snapshot_get (.error ⟨403⟩) = .error ⟨403⟩ ∧
    Part2.instance_exists (.error ⟨404⟩) = .ok false := by
  exact ⟨lookup_error_routing.1 ⟨403⟩ (by decide),
         lookup_error_routing.2.1 ⟨404⟩ rfl,
         (lookup_error_routing.2.2.2.2.2.1) ⟨403⟩ (by decide),
         (lookup_error_routing.2.2.2.2.2.2.2.2.1) ⟨404⟩ rfl⟩

/-- Claim C2 counterexample: the part3 firewall reconciler, given a lookup
that fails with HTTP 403 (an auth/permission failure, not 404), does not
propagate the failure — it issues the firewall create call and reports
success, treating the non-404 failure as absence. -/
theorem lookup_403_treated_as_absent :
    Part3.ensure_firewall (.error (.http ⟨403⟩)) [⟨("DONE"), none⟩]
      = (some (.ok ()), [ApiCall.firewallInsert ("allow-5001")]) ∧
    (403 : Nat) ≠ 404 := by
  exact ⟨rfl, by omega⟩
